import Mathlib

/-!
Shallow embedding of the SureWeather suitability-scoring core
(`src/backend/app/scoring.py`, `src/backend/app/clothing.py`,
`src/backend/app/services.py`, `src/ml/probabilities.py`).

Numeric values are modelled as rationals (`ℚ`); every literal appearing in the
source (`23.5`, `0.1`, penalty weights, …) is exactly representable, and none of
the verified claims hinge on binary floating-point artifacts.  Python's
`dict.get(key, default)` reads of the weather mapping are modelled with
`Option.getD`.  Display-only payloads (emoji icons) are omitted; reason strings
embed numeric values via `toString` in place of Python f-string formatting (the
string structure, not the digit rendering, is what the claims depend on).
-/

namespace SureWeather

/-- Python's two-argument `max` on rationals, written executably (the lattice
`max` of Mathlib does not reduce inside the kernel). -/
def qmax (a b : ℚ) : ℚ := if a ≤ b then b else a

/-- Python's two-argument `min` on rationals, written executably. -/
def qmin (a b : ℚ) : ℚ := if a ≤ b then a else b

/-- Python's `abs` on rationals, written executably. -/
def qabs (a : ℚ) : ℚ := if a < 0 then -a else a

/-- Clamp a rational to the interval `[0, 1]`, as `max(0, min(1, x))`. -/
def clamp01 (q : ℚ) : ℚ := qmax 0 (qmin 1 q)

/-- Clamp a rational to the interval `[0, 100]`, as `max(0, min(100, x))`. -/
def clamp100 (q : ℚ) : ℚ := qmax 0 (qmin 100 q)

/-- Round to the nearest integer, ties to even (the rule Python's `round`
applies to its float argument). -/
def roundHalfEven (q : ℚ) : ℤ :=
  if q - ⌊q⌋ = 1/2 then (if ⌊q⌋ % 2 = 0 then ⌊q⌋ else ⌊q⌋ + 1)
  else ⌊q + 1/2⌋

/-- Python's `round(x, 2)` on the rational model. -/
def round2 (q : ℚ) : ℚ := (roundHalfEven (q * 100) : ℚ) / 100

/-- Python's `round(x, 1)` on the rational model. -/
def round1 (q : ℚ) : ℚ := (roundHalfEven (q * 10) : ℚ) / 10

/-! ## Data model (`src/backend/app/models.py`) -/

/-- `WeatherCondition` enumeration. -/
inductive Condition where
  | sunny | cloudy | rainy | snowy | windy | foggy | stormy
deriving DecidableEq, BEq

/-- `EventCategory` enumeration. -/
inductive Category where
  | sunny_friendly | rain_compatible | wind_based | cold_weather | uncomfortable
deriving DecidableEq, BEq

/-- `ClothingItem` enumeration. -/
inductive ClothingItem where
  | umbrella | sunglasses | jacket | sunscreen | boots | hat | gloves | scarf
deriving DecidableEq, BEq

/-- The raw weather mapping handed to the scoring and clothing services: a
Python `dict` in which any of the fields may be absent (`none`), read through
`dict.get(key, default)`. -/
structure Weather where
  temperature : Option ℚ
  humidity : Option ℚ
  wind_speed : Option ℚ
  precipitation : Option ℚ
  visibility : Option ℚ
  uv_index : Option ℚ
  cloud_cover : Option ℚ
  condition : Option Condition
deriving DecidableEq

/-- A weather mapping with every field absent. -/
def emptyWeather : Weather :=
  { temperature := none, humidity := none, wind_speed := none,
    precipitation := none, visibility := none, uv_index := none,
    cloud_cover := none, condition := none }

/-- Fill the seven documented defaults into a weather mapping: temperature 20,
humidity 50, wind 10, precipitation 0, visibility 10, uv_index 5, condition
"sunny".  `cloud_cover` has no documented default (it is never read by the
scoring or clothing services) and is left untouched. -/
def fillDefaults (w : Weather) : Weather :=
  { temperature := some (w.temperature.getD 20),
    humidity := some (w.humidity.getD 50),
    wind_speed := some (w.wind_speed.getD 10),
    precipitation := some (w.precipitation.getD 0),
    visibility := some (w.visibility.getD 10),
    uv_index := some (w.uv_index.getD 5),
    cloud_cover := w.cloud_cover,
    condition := some (w.condition.getD Condition.sunny) }

/-- The recognized keys of an event's `weather_requirements` mapping; a `none`
field models the key being absent from the dict. -/
structure Requirements where
  min_temp : Option ℚ
  max_temp : Option ℚ
  min_wind : Option ℚ
  max_wind : Option ℚ
  max_precipitation : Option ℚ
  min_visibility : Option ℚ
deriving DecidableEq

/-- A requirements mapping with no keys present. -/
def noRequirements : Requirements :=
  { min_temp := none, max_temp := none, min_wind := none, max_wind := none,
    max_precipitation := none, min_visibility := none }

/-- An `Event` catalog entry (`models.Event`; the `description` field carries
no logic and is omitted). -/
structure Event where
  id : String
  name : String
  category : Category
  weather_requirements : Requirements
  min_comfort_score : ℚ
deriving DecidableEq

/-- `models.EventSuitabilityScore`. -/
structure EventSuitabilityScore where
  event_id : String
  event_name : String
  score : ℚ
  reasons : List String
  recommendations : List String
deriving DecidableEq

/-- `models.ClothingRecommendation` (the display-only `icon` field omitted). -/
structure ClothingRecommendation where
  item : ClothingItem
  priority : ℕ
  reason : String
deriving DecidableEq

/-- `models.OutfitRecommendation`. -/
structure OutfitRecommendation where
  location : String
  forecast_type : String
  recommendations : List ClothingRecommendation
  comfort_tips : List String
deriving DecidableEq

/-! ## Stable sorting

Python's `list.sort(key=…, reverse=True)` is a stable descending sort.  We
model it with a stable insertion sort by a numeric-like key and prove the
properties the claims need: membership, length, descending pairwise order and
stability (key-equal elements keep their relative order). -/

/-- Insert `x` into `l`, passing every element whose key is strictly larger;
among equal keys the inserted element goes first, which together with
`sortByKeyDesc` processing the list front-first yields exactly the stable
descending order of Python's `list.sort(…, reverse=True)`. -/
def insertByKeyDesc {α β : Type _} [LinearOrder β] (key : α → β) (x : α) :
    List α → List α
  | [] => [x]
  | y :: ys =>
    if key x < key y then y :: insertByKeyDesc key x ys else x :: y :: ys

/-- Stable insertion sort, descending by `key`. -/
def sortByKeyDesc {α β : Type _} [LinearOrder β] (key : α → β) :
    List α → List α
  | [] => []
  | x :: xs => insertByKeyDesc key x (sortByKeyDesc key xs)

theorem mem_insertByKeyDesc {α β : Type _} [LinearOrder β] (key : α → β)
    (x z : α) (l : List α) :
    z ∈ insertByKeyDesc key x l ↔ z = x ∨ z ∈ l := by
  induction l with
  | nil => simp [insertByKeyDesc]
  | cons y ys ih =>
    by_cases h : key x < key y
    · simp only [insertByKeyDesc, if_pos h, List.mem_cons, ih]
      tauto
    · simp only [insertByKeyDesc, if_neg h, List.mem_cons]

theorem mem_sortByKeyDesc {α β : Type _} [LinearOrder β] (key : α → β)
    (z : α) (l : List α) :
    z ∈ sortByKeyDesc key l ↔ z ∈ l := by
  induction l with
  | nil => simp [sortByKeyDesc]
  | cons x xs ih =>
    simp only [sortByKeyDesc, mem_insertByKeyDesc, List.mem_cons, ih]

theorem length_insertByKeyDesc {α β : Type _} [LinearOrder β] (key : α → β)
    (x : α) (l : List α) :
    (insertByKeyDesc key x l).length = l.length + 1 := by
  induction l with
  | nil => rfl
  | cons y ys ih =>
    by_cases h : key x < key y
    · simp [insertByKeyDesc, if_pos h, ih]
    · simp [insertByKeyDesc, if_neg h]

theorem length_sortByKeyDesc {α β : Type _} [LinearOrder β] (key : α → β)
    (l : List α) : (sortByKeyDesc key l).length = l.length := by
  induction l with
  | nil => rfl
  | cons x xs ih => simp [sortByKeyDesc, length_insertByKeyDesc, ih]

theorem pairwise_insertByKeyDesc {α β : Type _} [LinearOrder β] (key : α → β)
    (x : α) (l : List α) (h : l.Pairwise (fun a b => key b ≤ key a)) :
    (insertByKeyDesc key x l).Pairwise (fun a b => key b ≤ key a) := by
  induction l with
  | nil => simp [insertByKeyDesc]
  | cons y ys ih =>
    rcases List.pairwise_cons.mp h with ⟨hy, hys⟩
    by_cases hk : key x < key y
    · simp only [insertByKeyDesc, if_pos hk, List.pairwise_cons]
      refine ⟨?_, ih hys⟩
      intro z hz
      rcases (mem_insertByKeyDesc key x z ys).mp hz with rfl | hz
      · exact le_of_lt hk
      · exact hy z hz
    · simp only [insertByKeyDesc, if_neg hk, List.pairwise_cons]
      refine ⟨?_, hy, hys⟩
      intro z hz
      rcases List.mem_cons.mp hz with rfl | hz
      · exact le_of_not_lt hk
      · exact le_trans (hy z hz) (le_of_not_lt hk)

theorem pairwise_sortByKeyDesc {α β : Type _} [LinearOrder β] (key : α → β)
    (l : List α) :
    (sortByKeyDesc key l).Pairwise (fun a b => key b ≤ key a) := by
  induction l with
  | nil => simp [sortByKeyDesc]
  | cons x xs ih => exact pairwise_insertByKeyDesc key x _ ih

theorem filter_insertByKeyDesc {α β : Type _} [LinearOrder β] (key : α → β)
    (s : β) (x : α) (l : List α) :
    (insertByKeyDesc key x l).filter (fun a => decide (key a = s)) =
      if key x = s then x :: l.filter (fun a => decide (key a = s))
      else l.filter (fun a => decide (key a = s)) := by
  induction l with
  | nil =>
    by_cases h : key x = s <;> simp [insertByKeyDesc, List.filter, h]
  | cons y ys ih =>
    by_cases hk : key x < key y
    · simp only [insertByKeyDesc, if_pos hk]
      by_cases hx : key x = s
      · have hy : ¬ key y = s := by
          intro hy; rw [hx] at hk; rw [hy] at hk; exact lt_irrefl s hk
        simp [List.filter_cons, hx, hy, ih]
      · simp [List.filter_cons, hx, ih]
    · simp only [insertByKeyDesc, if_neg hk]
      by_cases hx : key x = s <;> simp [List.filter_cons, hx]

/-- Stability of the descending sort: for every key value `s`, the key-`s`
elements of the sorted list are exactly the key-`s` elements of the input, in
the input's order. -/
theorem filter_sortByKeyDesc {α β : Type _} [LinearOrder β] (key : α → β)
    (s : β) (l : List α) :
    (sortByKeyDesc key l).filter (fun a => decide (key a = s)) =
      l.filter (fun a => decide (key a = s)) := by
  induction l with
  | nil => rfl
  | cons x xs ih =>
    by_cases hx : key x = s <;>
      simp [sortByKeyDesc, filter_insertByKeyDesc, hx, List.filter_cons, ih]

/-! ## Activity scoring (`src/backend/app/scoring.py`, `EventScoringService`)

`_calculate_score` starts at `score = 100.0` and walks a fixed ladder of
penalty rules, each appending at most one reason and one recommendation; the
penalties are additive, so the ladder is modelled as one rule block per source
`if` block, combined in the source's evaluation order.  The final score is
clamped with `max(0, min(100, score))` and exactly one banded summary reason is
appended. -/

/-- Output of one penalty/bonus block: the signed score delta plus the reason
and recommendation strings the block appends. -/
structure RuleOut where
  delta : ℚ
  reasons : List String
  recs : List String

/-- A block that fired nothing. -/
def RuleOut.zero : RuleOut := ⟨0, [], []⟩

/-- Sequential composition of two blocks: deltas add, the string lists append
in evaluation order. -/
def RuleOut.comb (a b : RuleOut) : RuleOut :=
  ⟨a.delta + b.delta, a.reasons ++ b.reasons, a.recs ++ b.recs⟩

/-- The `min_temp` block (scoring.py lines 69-74): below the threshold the
penalty is `(threshold − temp) × 5`. -/
def ruleMinTemp (req : Option ℚ) (temp : ℚ) : RuleOut :=
  match req with
  | none => RuleOut.zero
  | some t =>
    if temp < t then
      ⟨-((t - temp) * 5),
       ["Temperature too low (" ++ toString temp ++ "C < " ++ toString t ++ "C)"],
       ["Consider indoor alternatives or wait for warmer weather"]⟩
    else RuleOut.zero

/-- The `max_temp` block (lines 76-81): above the threshold the penalty is
`(temp − threshold) × 3`. -/
def ruleMaxTemp (req : Option ℚ) (temp : ℚ) : RuleOut :=
  match req with
  | none => RuleOut.zero
  | some t =>
    if t < temp then
      ⟨-((temp - t) * 3),
       ["Temperature too high (" ++ toString temp ++ "C > " ++ toString t ++ "C)"],
       ["Consider early morning or evening timing"]⟩
    else RuleOut.zero

/-- The `min_wind` block (lines 84-89): penalty `(threshold − wind) × 2`. -/
def ruleMinWind (req : Option ℚ) (wind : ℚ) : RuleOut :=
  match req with
  | none => RuleOut.zero
  | some t =>
    if wind < t then
      ⟨-((t - wind) * 2),
       ["Wind too light (" ++ toString wind ++ " km/h < " ++ toString t ++ " km/h)"],
       ["Wait for windier conditions or consider alternative activities"]⟩
    else RuleOut.zero

/-- The `max_wind` block (lines 91-96): penalty `(wind − threshold) × 4`. -/
def ruleMaxWind (req : Option ℚ) (wind : ℚ) : RuleOut :=
  match req with
  | none => RuleOut.zero
  | some t =>
    if t < wind then
      ⟨-((wind - t) * 4),
       ["Wind too strong (" ++ toString wind ++ " km/h > " ++ toString t ++ " km/h)"],
       ["Consider indoor alternatives or wait for calmer conditions"]⟩
    else RuleOut.zero

/-- The `max_precipitation` block (lines 99-104): penalty
`(precipitation − threshold) × 8`. -/
def ruleMaxPrecip (req : Option ℚ) (precip : ℚ) : RuleOut :=
  match req with
  | none => RuleOut.zero
  | some t =>
    if t < precip then
      ⟨-((precip - t) * 8),
       ["Too much precipitation (" ++ toString precip ++ "mm > " ++ toString t ++ "mm)"],
       ["Consider indoor alternatives or wait for drier conditions"]⟩
    else RuleOut.zero

/-- The `min_visibility` block (lines 107-113): penalty
`(threshold − visibility) × 3`. -/
def ruleMinVisibility (req : Option ℚ) (vis : ℚ) : RuleOut :=
  match req with
  | none => RuleOut.zero
  | some t =>
    if vis < t then
      ⟨-((t - vis) * 3),
       ["Poor visibility (" ++ toString vis ++ "km < " ++ toString t ++ "km)"],
       ["Wait for clearer conditions"]⟩
    else RuleOut.zero

/-- The category-based adjustment `if/elif` chain (lines 116-134).  An event
has exactly one category, so the chain is a `match` on it; `rain_compatible`
adds a `+10` bonus with a reason but no recommendation. -/
def ruleCategory (cat : Category) (cond : Condition) (wind temp : ℚ) : RuleOut :=
  match cat with
  | Category.sunny_friendly =>
    if cond = Condition.rainy ∨ cond = Condition.snowy ∨
        cond = Condition.stormy then
      ⟨-30, ["Weather not suitable for outdoor sunny activities"],
       ["Consider indoor alternatives or wait for better weather"]⟩
    else RuleOut.zero
  | Category.rain_compatible =>
    if cond = Condition.sunny ∨ cond = Condition.cloudy then
      ⟨10, ["Perfect weather for this indoor activity"], []⟩
    else RuleOut.zero
  | Category.wind_based =>
    if wind < 5 then
      ⟨-20, ["Insufficient wind for wind-based activities"],
       ["Wait for windier conditions"]⟩
    else RuleOut.zero
  | Category.cold_weather =>
    if 10 < temp then
      ⟨-25, ["Too warm for cold-weather activities"],
       ["Consider winter alternatives or wait for colder weather"]⟩
    else RuleOut.zero
  | Category.uncomfortable => RuleOut.zero

/-- The unconditional humidity comfort block (lines 137-140): `humidity > 80`
costs 10 points. -/
def ruleHumidity (humidity : ℚ) : RuleOut :=
  if 80 < humidity then
    ⟨-10, ["High humidity may cause discomfort"],
     ["Stay hydrated and take breaks"]⟩
  else RuleOut.zero

/-- The unconditional wind comfort block (lines 142-145): `wind_speed > 20`
costs 15 points. -/
def ruleWindComfort (wind : ℚ) : RuleOut :=
  if 20 < wind then
    ⟨-15, ["Strong winds may cause discomfort"],
     ["Dress appropriately and secure loose items"]⟩
  else RuleOut.zero

/-- All penalty blocks of `_calculate_score` combined in the source's
evaluation order. -/
def scoreRules (e : Event) (temp humidity wind precip vis : ℚ)
    (cond : Condition) : RuleOut :=
  (ruleMinTemp e.weather_requirements.min_temp temp).comb <|
  (ruleMaxTemp e.weather_requirements.max_temp temp).comb <|
  (ruleMinWind e.weather_requirements.min_wind wind).comb <|
  (ruleMaxWind e.weather_requirements.max_wind wind).comb <|
  (ruleMaxPrecip e.weather_requirements.max_precipitation precip).comb <|
  (ruleMinVisibility e.weather_requirements.min_visibility vis).comb <|
  (ruleCategory e.category cond wind temp).comb <|
  (ruleHumidity humidity).comb (ruleWindComfort wind)

/-- The banded summary reason appended last (lines 151-158), chosen from the
clamped final score, highest band first. -/
def summaryReason (score : ℚ) : String :=
  if 80 ≤ score then "Excellent weather conditions for this event"
  else if 60 ≤ score then "Good weather conditions for this event"
  else if 40 ≤ score then "Moderate weather conditions - proceed with caution"
  else "Poor weather conditions for this event"

/-- `_calculate_score` on already-defaulted field values: clamp
`100 + Σ deltas` to `[0,100]`, then append the summary reason. -/
def calcScoreCore (e : Event) (temp humidity wind precip vis : ℚ)
    (cond : Condition) : ℚ × List String × List String :=
  let o := scoreRules e temp humidity wind precip vis cond
  let score := clamp100 (100 + o.delta)
  (score, o.reasons ++ [summaryReason score], o.recs)

/-- `_calculate_score`: the weather dict is read through `get` with the
documented defaults (lines 62-66 and 108); `uv_index` and `cloud_cover` are
never read. -/
def calcScore (e : Event) (w : Weather) : ℚ × List String × List String :=
  calcScoreCore e (w.temperature.getD 20) (w.humidity.getD 50)
    (w.wind_speed.getD 10) (w.precipitation.getD 0) (w.visibility.getD 10)
    (w.condition.getD Condition.sunny)

/-- Wrap a scored event into an `EventSuitabilityScore` (lines 40-46). -/
def mkSuitability (e : Event) (w : Weather) : EventSuitabilityScore :=
  { event_id := e.id, event_name := e.name, score := (calcScore e w).1,
    reasons := (calcScore e w).2.1, recommendations := (calcScore e w).2.2 }

/-- The category filter of `get_event_recommendations` (lines 32-34): Python's
`if categories:` is false both for `None` and for an empty list, so filtering
happens only for a non-empty list. -/
def filteredEvents (events : List Event) (cats : Option (List Category)) :
    List Event :=
  match cats with
  | none => events
  | some cs => if cs.isEmpty then events else
      events.filter (fun e => cs.contains e.category)

/-- The loop body of `get_event_recommendations` (lines 36-49): score each
filtered event in catalog order and keep it only when
`score ≥ min_comfort_score`.  (`calcScore` is total, so the per-event
`try/except` skip never fires in the model.) -/
def keptResults (events : List Event) (w : Weather)
    (cats : Option (List Category)) : List EventSuitabilityScore :=
  (filteredEvents events cats).filterMap fun e =>
    if e.min_comfort_score ≤ (calcScore e w).1 then some (mkSuitability e w)
    else none

/-- `get_event_recommendations` (lines 25-53): keep suitable events, stable
sort descending by score, return the first 10.  The `forecast_type` argument
is accepted but unused, as in the source. -/
def getEventRecommendations (events : List Event) (w : Weather)
    (_ftype : String) (cats : Option (List Category)) :
    List EventSuitabilityScore :=
  (sortByKeyDesc (fun r => r.score) (keptResults events w cats)).take 10

/-! ## Clothing advisor (`src/backend/app/clothing.py`,
`ClothingRecommendationService.get_recommendations`)

One definition per banded `if/elif` dimension, each returning the
recommendations and comfort tips its branch appends, combined in source
order; the final list is stable-sorted descending by priority. -/

/-- Temperature bands (clothing.py lines 31-134): `<0`, `elif <10`,
`elif <20`, `elif >30`, `elif >25`. -/
def tempClothing (temp : ℚ) : List ClothingRecommendation × List String :=
  if temp < 0 then
    ([⟨ClothingItem.jacket, 5, "Very cold weather - heavy winter jacket essential"⟩,
      ⟨ClothingItem.gloves, 5, "Protect hands from freezing temperatures"⟩,
      ⟨ClothingItem.scarf, 4, "Protect neck and face from cold"⟩,
      ⟨ClothingItem.boots, 4, "Warm, waterproof footwear essential"⟩],
     ["Layer up with thermal clothing",
      "Keep extremities warm to prevent frostbite"])
  else if temp < 10 then
    ([⟨ClothingItem.jacket, 4, "Cold weather - warm jacket recommended"⟩,
      ⟨ClothingItem.gloves, 3, "Protect hands from cold"⟩,
      ⟨ClothingItem.boots, 3, "Warm, comfortable footwear"⟩],
     ["Wear layers for easy temperature adjustment"])
  else if temp < 20 then
    ([⟨ClothingItem.jacket, 2, "Light jacket for cool weather"⟩],
     ["Dress in layers for comfort"])
  else if 30 < temp then
    ([⟨ClothingItem.sunglasses, 4, "Protect eyes from bright sun"⟩,
      ⟨ClothingItem.sunscreen, 5, "Essential protection from UV rays"⟩,
      ⟨ClothingItem.hat, 4, "Protect head from sun and heat"⟩],
     ["Wear light, breathable fabrics",
      "Stay hydrated and take breaks in shade"])
  else if 25 < temp then
    ([⟨ClothingItem.sunglasses, 3, "Protect eyes from sun"⟩,
      ⟨ClothingItem.sunscreen, 4, "Protect skin from UV rays"⟩],
     ["Wear light, comfortable clothing"])
  else ([], [])

/-- Precipitation bands (lines 137-176): `>5`, `elif >1`. -/
def precipClothing (precip : ℚ) : List ClothingRecommendation × List String :=
  if 5 < precip then
    ([⟨ClothingItem.umbrella, 5, "Heavy rain expected - umbrella essential"⟩,
      ⟨ClothingItem.boots, 4, "Waterproof footwear for wet conditions"⟩,
      ⟨ClothingItem.jacket, 4, "Waterproof jacket recommended"⟩],
     ["Avoid cotton clothing - it stays wet longer",
      "Consider waterproof bags for electronics"])
  else if 1 < precip then
    ([⟨ClothingItem.umbrella, 3, "Light rain expected"⟩,
      ⟨ClothingItem.jacket, 2, "Light rain protection"⟩],
     ["Quick-drying fabrics recommended"])
  else ([], [])

/-- Wind bands (lines 179-206): `>20`, `elif >15`. -/
def windClothing (wind : ℚ) : List ClothingRecommendation × List String :=
  if 20 < wind then
    ([⟨ClothingItem.jacket, 3, "Windy conditions - windproof jacket recommended"⟩,
      ⟨ClothingItem.hat, 3, "Secure hat to protect from wind"⟩],
     ["Secure loose items and hair", "Consider windproof layers"])
  else if 15 < wind then
    ([⟨ClothingItem.jacket, 2, "Moderate wind - light windbreaker"⟩],
     ["Dress in layers for wind protection"])
  else ([], [])

/-- UV-index bands (lines 209-248): `>7`, `elif >5`. -/
def uvClothing (uv : ℚ) : List ClothingRecommendation × List String :=
  if 7 < uv then
    ([⟨ClothingItem.sunscreen, 5,
       "Very high UV index (" ++ toString uv ++ ") - sunscreen essential"⟩,
      ⟨ClothingItem.sunglasses, 4, "Protect eyes from intense UV"⟩,
      ⟨ClothingItem.hat, 4, "Protect head from intense sun"⟩],
     ["Seek shade during peak sun hours (10 AM - 4 PM)",
      "Reapply sunscreen every 2 hours"])
  else if 5 < uv then
    ([⟨ClothingItem.sunscreen, 4,
       "High UV index (" ++ toString uv ++ ") - sunscreen recommended"⟩,
      ⟨ClothingItem.sunglasses, 3, "Protect eyes from UV"⟩],
     ["Apply sunscreen before going outside"])
  else ([], [])

/-- Humidity tips (lines 251-255): `>80`, `elif <30`; no clothing items. -/
def humidityTips (humidity : ℚ) : List String :=
  if 80 < humidity then
    ["High humidity - wear breathable fabrics",
     "Stay hydrated and take frequent breaks"]
  else if humidity < 30 then
    ["Low humidity - use moisturizer and stay hydrated"]
  else []

/-- Forecast-type tips (lines 258-262). -/
def forecastTips (ftype : String) : List String :=
  if ftype = "long_term" then
    ["Plan ahead for seasonal weather changes",
     "Consider versatile clothing options"]
  else ["Check weather updates throughout the day"]

/-- `get_recommendations` (lines 17-272): read the weather dict with the
documented defaults (the `condition` key is read but never used; `visibility`
and `cloud_cover` are never read), evaluate every band, then stable-sort the
item list descending by priority. -/
def getClothingRecommendations (w : Weather) (ftype : String)
    (location : String) : OutfitRecommendation :=
  let temp := w.temperature.getD 20
  let humidity := w.humidity.getD 50
  let wind := w.wind_speed.getD 10
  let precip := w.precipitation.getD 0
  let _condition := w.condition.getD Condition.sunny
  let uv := w.uv_index.getD 5
  let t := tempClothing temp
  let p := precipClothing precip
  let wd := windClothing wind
  let u := uvClothing uv
  { location := location, forecast_type := ftype,
    recommendations :=
      sortByKeyDesc (fun r => r.priority) (t.1 ++ p.1 ++ wd.1 ++ u.1),
    comfort_tips :=
      t.2 ++ p.2 ++ wd.2 ++ u.2 ++ humidityTips humidity ++ forecastTips ftype }

/-! ## Comfort index (`src/backend/app/services.py`,
`WeatherService._calculate_comfort_index`, lines 235-256)

The calculator receives a fully populated `WeatherData` record (pydantic model
with required fields); only the six numeric fields below are read. -/

/-- A fully populated weather reading (`models.WeatherData`; the fields the
comfort calculator never reads — wind direction, condition, timestamp — are
omitted, `cloud_cover` kept for completeness of the record). -/
structure WeatherData where
  temperature : ℚ
  humidity : ℚ
  wind_speed : ℚ
  precipitation : ℚ
  cloud_cover : ℚ
  visibility : ℚ
  uv_index : ℚ
deriving DecidableEq

/-- `_calculate_comfort_index`, transcribed block by block. -/
def calcComfortIndex (w : WeatherData) : ℚ :=
  let temp_score := qmax 0 (100 - qabs (w.temperature - 22.5) * 4)
  let humidity_score := qmax 0 (100 - qabs (w.humidity - 50) * 1.5)
  let wind_score := qmax 0 (100 - qabs (w.wind_speed - 8) * 5)
  let precip_penalty := qmin 50 (w.precipitation * 10)
  let uv_penalty := qmin 30 (qmax 0 (w.uv_index - 6) * 5)
  let visibility_penalty := qmin 20 (qmax 0 (10 - w.visibility) * 2)
  let comfort := (temp_score + humidity_score + wind_score) / 3
    - precip_penalty - uv_penalty - visibility_penalty
  qmax 0 (qmin 100 comfort)

/-- The comfort-index formula exactly as the specification words it: clamp to
`[0,100]` of the average of the three sub-scores minus the three penalties.
Written from the spec, to be compared with `calcComfortIndex`. -/
def comfortIndexSpec (w : WeatherData) : ℚ :=
  clamp100 ((max 0 (100 - |w.temperature - 22.5| * 4)
    + max 0 (100 - |w.humidity - 50| * 1.5)
    + max 0 (100 - |w.wind_speed - 8| * 5)) / 3
    - min 50 (w.precipitation * 10)
    - min 30 (max 0 (w.uv_index - 6) * 5)
    - min 20 (max 0 (10 - w.visibility) * 2))

/-! ## Seasonal probabilities, ML pipeline (`src/ml/probabilities.py`,
`SeasonalProbabilityModel`) -/

/-- The climate-zone names of the `climate_zones` table. -/
inductive Zone where
  | tropical | subtropical | temperate | continental | polar
deriving DecidableEq, BEq

/-- `get_climate_zone` (probabilities.py lines 52-61): scan the zone table in
insertion order, returning the first zone with
`min_lat <= abs(latitude) <= max_lat` (both bounds inclusive); fall back to
`temperate`.  The `lat_range` entries are (-23.5, 23.5), (23.5, 35), (35, 50),
(50, 70), (70, 90). -/
def getClimateZone (latitude : ℚ) : Zone :=
  if -23.5 ≤ qabs latitude ∧ qabs latitude ≤ 23.5 then Zone.tropical
  else if 23.5 ≤ qabs latitude ∧ qabs latitude ≤ 35 then Zone.subtropical
  else if 35 ≤ qabs latitude ∧ qabs latitude ≤ 50 then Zone.temperate
  else if 50 ≤ qabs latitude ∧ qabs latitude ≤ 70 then Zone.continental
  else if 70 ≤ qabs latitude ∧ qabs latitude ≤ 90 then Zone.polar
  else Zone.temperate

/-- The per-key record returned by `_get_base_probabilities`. -/
structure ProbRecord where
  very_hot : ℚ
  very_cold : ℚ
  very_wet : ℚ
  very_windy : ℚ
  uncomfortable : ℚ
  avg_temp : ℚ
  avg_precip : ℚ
deriving DecidableEq

/-- `_get_base_probabilities` (lines 113-207): the zone-and-season literal
table.  Months 12, 1, 2 are winter; 3-5 spring; 6-8 summer; 9-11 fall. -/
def getBaseProbabilities (zone : Zone) (month : ℕ) : ProbRecord :=
  let is_winter := month ∈ [12, 1, 2]
  let is_spring := month ∈ [3, 4, 5]
  let is_summer := month ∈ [6, 7, 8]
  if zone = Zone.tropical ∨ zone = Zone.subtropical then
    if is_winter then ⟨0.1, 0.0, 0.3, 0.2, 0.2, 25, 60⟩
    else if is_summer then ⟨0.4, 0.0, 0.4, 0.3, 0.3, 28, 80⟩
    else ⟨0.2, 0.0, 0.3, 0.2, 0.2, 26, 70⟩
  else if zone = Zone.temperate then
    if is_winter then ⟨0.0, 0.3, 0.4, 0.4, 0.3, 5, 80⟩
    else if is_summer then ⟨0.2, 0.0, 0.2, 0.3, 0.2, 22, 50⟩
    else if is_spring then ⟨0.1, 0.1, 0.3, 0.4, 0.2, 15, 70⟩
    else ⟨0.1, 0.2, 0.3, 0.3, 0.2, 12, 60⟩
  else if zone = Zone.continental then
    if is_winter then ⟨0.0, 0.6, 0.2, 0.5, 0.5, -10, 30⟩
    else if is_summer then ⟨0.3, 0.0, 0.3, 0.2, 0.2, 20, 60⟩
    else ⟨0.1, 0.3, 0.2, 0.4, 0.3, 5, 40⟩
  else
    if is_winter then ⟨0.0, 0.8, 0.1, 0.6, 0.7, -25, 20⟩
    else if is_summer then ⟨0.0, 0.2, 0.2, 0.4, 0.3, 5, 40⟩
    else ⟨0.0, 0.5, 0.1, 0.5, 0.5, -10, 25⟩

/-- The adjustment dicts of `_get_latitude_adjustments` and
`_get_longitude_adjustments`: only the keys below ever appear; a missing key
is read back with `adjustments.get(key, 0)`. -/
structure Adjustments where
  very_hot : ℚ
  very_cold : ℚ
  very_wet : ℚ
  very_windy : ℚ
deriving DecidableEq

/-- `_get_latitude_adjustments` (lines 209-222): `|lat| > 60` and `|lat| > 40`
widen the seasonal cold/hot probabilities; otherwise the dict is empty. -/
def getLatitudeAdjustments (latitude : ℚ) (month : ℕ) : Adjustments :=
  let abs_lat := qabs latitude
  if 60 < abs_lat then
    { very_cold := if month ∈ [12, 1, 2] then 0.2 else -0.1,
      very_hot := if month ∈ [6, 7, 8] then 0.1 else -0.1,
      very_wet := 0, very_windy := 0 }
  else if 40 < abs_lat then
    { very_cold := if month ∈ [12, 1, 2] then 0.1 else -0.05,
      very_hot := if month ∈ [6, 7, 8] then 0.1 else -0.05,
      very_wet := 0, very_windy := 0 }
  else ⟨0, 0, 0, 0⟩

/-- `_get_longitude_adjustments` (lines 224-238): `-100 < longitude < 100` is
treated as continental, otherwise maritime.  The `latitude` argument is
accepted but unused, as in the source. -/
def getLongitudeAdjustments (longitude : ℚ) (_latitude : ℚ) : Adjustments :=
  if -100 < longitude ∧ longitude < 100 then
    { very_hot := 0.1, very_cold := 0.1, very_windy := 0.1, very_wet := 0 }
  else
    { very_hot := -0.1, very_cold := -0.1, very_wet := 0.1, very_windy := 0 }

/-- The published shape of one month's probabilities. -/
structure ClimateProbability where
  very_hot : ℚ
  very_cold : ℚ
  very_wet : ℚ
  very_windy : ℚ
  uncomfortable : ℚ
deriving DecidableEq

/-- A published monthly outlook (probabilities plus averages; the month name
string carries no logic). -/
structure MonthlyProbs where
  month : ℕ
  probabilities : ClimateProbability
  avg_temperature : ℚ
  avg_precipitation : ℚ
deriving DecidableEq

/-- `_calculate_month_probabilities` (lines 80-111): for every key of the base
record — the `avg_temp` and `avg_precip` keys included — the published value
is `max(0, min(1, base + lat_adjustment + lon_adjustment))`; the adjustment
dicts carry no `uncomfortable` key, so `uncomfortable` is the clamped base
value.  Probabilities are rounded to two decimals, averages to one. -/
def calcMonthProbabilities (month : ℕ) (zone : Zone) (latitude longitude : ℚ) :
    MonthlyProbs :=
  let base := getBaseProbabilities zone month
  let latA := getLatitudeAdjustments latitude month
  let lonA := getLongitudeAdjustments longitude latitude
  { month := month,
    probabilities :=
      { very_hot := round2 (clamp01 (base.very_hot + latA.very_hot + lonA.very_hot)),
        very_cold := round2 (clamp01 (base.very_cold + latA.very_cold + lonA.very_cold)),
        very_wet := round2 (clamp01 (base.very_wet + latA.very_wet + lonA.very_wet)),
        very_windy := round2 (clamp01 (base.very_windy + latA.very_windy + lonA.very_windy)),
        uncomfortable := round2 (clamp01 base.uncomfortable) },
    avg_temperature := round1 (clamp01 base.avg_temp),
    avg_precipitation := round1 (clamp01 base.avg_precip) }

/-! ## Seasonal probabilities, service pipeline (`src/backend/app/services.py`,
`WeatherService._generate_monthly_outlook`, lines 286-350)

The service draws its probability values with `random.uniform` inside a
season branch; the draws are modelled as explicit inputs constrained to the
branch's documented literal ranges. -/

/-- The effective season bucket. -/
inductive Season where
  | winter | spring | summer | fall
deriving DecidableEq, BEq

/-- Season of a month in the northern hemisphere (lines 289-292). -/
def monthSeason (month : ℕ) : Season :=
  if month ∈ [12, 1, 2] then Season.winter
  else if month ∈ [3, 4, 5] then Season.spring
  else if month ∈ [6, 7, 8] then Season.summer
  else Season.fall

/-- The hemisphere flip (lines 295-297): for `lat ≤ 0` the four season flags
are rotated — effective winter holds when the northern flags said summer,
spring when fall, summer when winter, fall when spring. -/
def effectiveSeason (month : ℕ) (lat : ℚ) : Season :=
  let s := monthSeason month
  if 0 < lat then s
  else match s with
    | Season.winter => Season.summer
    | Season.spring => Season.fall
    | Season.summer => Season.winter
    | Season.fall => Season.spring

/-- One evaluation's `random.uniform` draws. -/
structure OutlookDraws where
  very_hot : ℚ
  very_cold : ℚ
  very_wet : ℚ
  very_windy : ℚ
  avg_temp : ℚ
  avg_precip : ℚ
deriving DecidableEq

/-- The literal `random.uniform` ranges of each season branch
(lines 300-319 and 333-344). -/
def drawsInRange (s : Season) (d : OutlookDraws) : Prop :=
  match s with
  | Season.summer =>
    0.4 ≤ d.very_hot ∧ d.very_hot ≤ 0.8 ∧ 0.0 ≤ d.very_cold ∧ d.very_cold ≤ 0.1 ∧
    0.1 ≤ d.very_wet ∧ d.very_wet ≤ 0.4 ∧ 0.2 ≤ d.very_windy ∧ d.very_windy ≤ 0.5 ∧
    20 ≤ d.avg_temp ∧ d.avg_temp ≤ 30 ∧ 20 ≤ d.avg_precip ∧ d.avg_precip ≤ 80
  | Season.winter =>
    0.0 ≤ d.very_hot ∧ d.very_hot ≤ 0.1 ∧ 0.3 ≤ d.very_cold ∧ d.very_cold ≤ 0.7 ∧
    0.2 ≤ d.very_wet ∧ d.very_wet ≤ 0.6 ∧ 0.3 ≤ d.very_windy ∧ d.very_windy ≤ 0.6 ∧
    -5 ≤ d.avg_temp ∧ d.avg_temp ≤ 10 ∧ 30 ≤ d.avg_precip ∧ d.avg_precip ≤ 100
  | Season.spring =>
    0.1 ≤ d.very_hot ∧ d.very_hot ≤ 0.3 ∧ 0.1 ≤ d.very_cold ∧ d.very_cold ≤ 0.3 ∧
    0.2 ≤ d.very_wet ∧ d.very_wet ≤ 0.5 ∧ 0.3 ≤ d.very_windy ∧ d.very_windy ≤ 0.6 ∧
    10 ≤ d.avg_temp ∧ d.avg_temp ≤ 20 ∧ 40 ≤ d.avg_precip ∧ d.avg_precip ≤ 90
  | Season.fall =>
    0.1 ≤ d.very_hot ∧ d.very_hot ≤ 0.4 ∧ 0.1 ≤ d.very_cold ∧ d.very_cold ≤ 0.4 ∧
    0.2 ≤ d.very_wet ∧ d.very_wet ≤ 0.5 ∧ 0.3 ≤ d.very_windy ∧ d.very_windy ≤ 0.5 ∧
    5 ≤ d.avg_temp ∧ d.avg_temp ≤ 20 ∧ 30 ≤ d.avg_precip ∧ d.avg_precip ≤ 80

/-- `_generate_monthly_outlook` (lines 286-350) on given draws:
`uncomfortable = min(1.0, (very_hot + very_cold + very_windy)/3 +
very_wet * 0.5)` is computed from the raw draws, then every probability is
rounded to two decimals and the averages to one. -/
def generateMonthlyOutlook (month : ℕ) (_lat _lon : ℚ) (d : OutlookDraws) :
    MonthlyProbs :=
  let uncomfortable := qmin 1 ((d.very_hot + d.very_cold + d.very_windy) / 3
    + d.very_wet * 0.5)
  { month := month,
    probabilities :=
      { very_hot := round2 d.very_hot, very_cold := round2 d.very_cold,
        very_wet := round2 d.very_wet, very_windy := round2 d.very_windy,
        uncomfortable := round2 uncomfortable },
    avg_temperature := round1 d.avg_temp,
    avg_precipitation := round1 d.avg_precip }

/-! ## Concrete inputs used by example claims and witnesses -/

/-- The weather reading of spec Example 2. -/
def example2Weather : Weather :=
  { emptyWeather with
    temperature := some 35
    wind_speed := some 5
    precipitation := some 10
    humidity := some 60
    visibility := some 10
    uv_index := some 5
    condition := some Condition.sunny }

/-- The requirement mapping of spec Example 2:
`{max_temp: 25, max_precipitation: 2}`. -/
def example2Requirements : Requirements :=
  { noRequirements with max_temp := some 25, max_precipitation := some 2 }

/-- The weather reading of spec Example 3. -/
def example3Weather : Weather :=
  { emptyWeather with
    temperature := some (-3)
    precipitation := some 8
    wind_speed := some 25
    uv_index := some 2 }

/-- A catalog entry patterned on the `museum` row of the sample catalog
(db.py lines 43-44), with an empty requirement mapping so that it is kept by
the ranker. -/
def sampleEvent : Event :=
  { id := "museum", name := "Museum Tour", category := Category.rain_compatible,
    weather_requirements := noRequirements, min_comfort_score := 30 }

/-! ## Bridge lemmas between the executable `qmax`/`qmin`/`qabs` and the
order-theoretic `max`/`min`/`|·|` of the library -/

theorem qmax_eq_max (a b : ℚ) : qmax a b = max a b := by
  unfold qmax; exact (max_def a b).symm

theorem qmin_eq_min (a b : ℚ) : qmin a b = min a b := by
  unfold qmin; exact (min_def a b).symm

theorem qabs_eq_abs (a : ℚ) : qabs a = |a| := by
  unfold qabs
  split_ifs with h
  · exact (abs_of_neg h).symm
  · exact (abs_of_nonneg (not_lt.mp h)).symm

theorem le_qmax_left (a b : ℚ) : a ≤ qmax a b := by
  unfold qmax; split_ifs with h
  · exact h
  · exact le_refl a

theorem qmax_le {a b c : ℚ} (h1 : a ≤ c) (h2 : b ≤ c) : qmax a b ≤ c := by
  unfold qmax; split_ifs <;> assumption

theorem qmin_le_left (a b : ℚ) : qmin a b ≤ a := by
  unfold qmin; split_ifs with h
  · exact le_refl a
  · exact le_of_not_le h

/-! ## Claim theorems -/

/-- C1 counterexample: at latitude 23.5 the claim requires the subtropical
bucket (`23.5 ≤ |latitude| < 35`), but `get_climate_zone` scans its table with
inclusive bounds on both ends and returns `tropical` for `|23.5| ≤ 23.5`. -/
theorem climate_zone_buckets_cex :
    ((23.5 : ℚ) ≤ |(23.5 : ℚ)| ∧ |(23.5 : ℚ)| < 35) ∧
    getClimateZone 23.5 = Zone.tropical ∧
    getClimateZone 23.5 ≠ Zone.subtropical := by
  with_unfolding_all decide

/-- C1 (amended): the climate-zone buckets derived from `|latitude|` are:
tropical when `|lat| ≤ 23.5`, subtropical when `23.5 < |lat| ≤ 35`, temperate
when `35 < |lat| ≤ 50`, continental when `50 < |lat| ≤ 70`, polar when
`70 < |lat| ≤ 90`, and the out-of-domain `|lat| > 90` falls back to
temperate. -/
theorem climate_zone_buckets (lat : ℚ) :
    (getClimateZone lat = Zone.tropical ↔ |lat| ≤ 23.5) ∧
    (getClimateZone lat = Zone.subtropical ↔ 23.5 < |lat| ∧ |lat| ≤ 35) ∧
    (getClimateZone lat = Zone.temperate ↔
      (35 < |lat| ∧ |lat| ≤ 50) ∨ 90 < |lat|) ∧
    (getClimateZone lat = Zone.continental ↔ 50 < |lat| ∧ |lat| ≤ 70) ∧
    (getClimateZone lat = Zone.polar ↔ 70 < |lat| ∧ |lat| ≤ 90) := by
  have h0 : (0 : ℚ) ≤ |lat| := abs_nonneg lat
  unfold getClimateZone
  rw [qabs_eq_abs]
  split_ifs with h1 h2 h3 h4 h5
  · obtain ⟨hA, hB⟩ := h1
    refine ⟨iff_of_true rfl hB, ?_, ?_, ?_, ?_⟩ <;>
      refine iff_of_false (by decide) ?_
    · rintro ⟨h, -⟩; linarith
    · rintro (⟨h, -⟩ | h) <;> linarith
    · rintro ⟨h, -⟩; linarith
    · rintro ⟨h, -⟩; linarith
  · have k1 : (23.5 : ℚ) < |lat| := lt_of_not_le fun hle => h1 ⟨by linarith, hle⟩
    obtain ⟨hA, hB⟩ := h2
    refine ⟨iff_of_false (by decide) (fun h => absurd k1 (not_lt.mpr h)),
      iff_of_true rfl ⟨k1, hB⟩, ?_, ?_, ?_⟩ <;>
      refine iff_of_false (by decide) ?_
    · rintro (⟨h, -⟩ | h) <;> linarith
    · rintro ⟨h, -⟩; linarith
    · rintro ⟨h, -⟩; linarith
  · obtain ⟨hA, hB⟩ := h3
    have k2 : (35 : ℚ) < |lat| := lt_of_not_le fun hle => h2 ⟨by linarith, hle⟩
    refine ⟨iff_of_false (by decide) (fun h => by linarith),
      iff_of_false (by decide) (fun h => by rcases h with ⟨-, h⟩; linarith),
      iff_of_true rfl (Or.inl ⟨k2, hB⟩), ?_, ?_⟩ <;>
      refine iff_of_false (by decide) ?_
    · rintro ⟨h, -⟩; linarith
    · rintro ⟨h, -⟩; linarith
  · obtain ⟨hA, hB⟩ := h4
    have k3 : (50 : ℚ) < |lat| := lt_of_not_le fun hle => h3 ⟨by linarith, hle⟩
    refine ⟨iff_of_false (by decide) (fun h => by linarith),
      iff_of_false (by decide) (fun h => by rcases h with ⟨-, h⟩; linarith),
      iff_of_false (by decide) ?_,
      iff_of_true rfl ⟨k3, hB⟩,
      iff_of_false (by decide) (fun h => by rcases h with ⟨h, -⟩; linarith)⟩
    rintro (⟨-, h⟩ | h) <;> linarith
  · obtain ⟨hA, hB⟩ := h5
    have k4 : (70 : ℚ) < |lat| := lt_of_not_le fun hle => h4 ⟨by linarith, hle⟩
    refine ⟨iff_of_false (by decide) (fun h => by linarith),
      iff_of_false (by decide) (fun h => by rcases h with ⟨-, h⟩; linarith),
      iff_of_false (by decide) ?_,
      iff_of_false (by decide) (fun h => by rcases h with ⟨-, h⟩; linarith),
      iff_of_true rfl ⟨k4, hB⟩⟩
    rintro (⟨-, h⟩ | h) <;> linarith
  · have k1 : (23.5 : ℚ) < |lat| := lt_of_not_le fun hle => h1 ⟨by linarith, hle⟩
    have k2 : (35 : ℚ) < |lat| := lt_of_not_le fun hle => h2 ⟨by linarith, hle⟩
    have k3 : (50 : ℚ) < |lat| := lt_of_not_le fun hle => h3 ⟨by linarith, hle⟩
    have k4 : (70 : ℚ) < |lat| := lt_of_not_le fun hle => h4 ⟨by linarith, hle⟩
    have k5 : (90 : ℚ) < |lat| := lt_of_not_le fun hle => h5 ⟨by linarith, hle⟩
    exact ⟨iff_of_false (by decide) (fun h => by linarith),
      iff_of_false (by decide) (fun h => by rcases h with ⟨-, h⟩; linarith),
      iff_of_true rfl (Or.inr k5),
      iff_of_false (by decide) (fun h => by rcases h with ⟨-, h⟩; linarith),
      iff_of_false (by decide) (fun h => by rcases h with ⟨-, h⟩; linarith)⟩

/-- C3: on the Example 2 weather against any activity with requirements
`{max_temp: 25, max_precipitation: 2}` and category `sunny_friendly`, the
matcher returns exactly `100 − (35−25)×3 − (10−2)×8 = 6`, and the summary
reason appended last is the "poor" band string. -/
theorem matcher_example2 (id name : String) (minc : ℚ) :
    (calcScore ⟨id, name, Category.sunny_friendly, example2Requirements, minc⟩
        example2Weather).1 = 6 ∧
    (calcScore ⟨id, name, Category.sunny_friendly, example2Requirements, minc⟩
        example2Weather).2.1.getLast? =
      some "Poor weather conditions for this event" := by
  norm_num +decide [calcScore, calcScoreCore, scoreRules, ruleMinTemp,
    ruleMaxTemp, ruleMinWind, ruleMaxWind, ruleMaxPrecip, ruleMinVisibility,
    ruleCategory, ruleHumidity, ruleWindComfort, RuleOut.comb, RuleOut.zero,
    clamp100, qmax, qmin, summaryReason, example2Weather, example2Requirements,
    emptyWeather, noRequirements, List.getLast?]

/-- If the raw scores are strictly ordered, the clamped scores are strictly
ordered unless both saturate at the same end of `[0, 100]`. -/
theorem clamp100_lt_or_saturated {r1 r2 : ℚ} (h : r2 < r1) :
    clamp100 r2 < clamp100 r1 ∨ (clamp100 r1 = 0 ∧ clamp100 r2 = 0) ∨
      (clamp100 r1 = 100 ∧ clamp100 r2 = 100) := by
  rcases le_or_lt r1 0 with h1 | h1
  · refine Or.inr (Or.inl ⟨?_, ?_⟩) <;>
      (unfold clamp100 qmin qmax; split_ifs <;> linarith)
  · rcases le_or_lt 100 r2 with h2 | h2
    · refine Or.inr (Or.inr ⟨?_, ?_⟩) <;>
        (unfold clamp100 qmin qmax; split_ifs <;> linarith)
    · refine Or.inl ?_
      unfold clamp100 qmin qmax
      split_ifs <;> linarith

/-- The penalty blocks are additive: the total delta splits into the
`max_precipitation` block plus a remainder not involving precipitation. -/
theorem scoreRules_delta (e : Event) (temp humidity wind precip vis : ℚ)
    (cond : Condition) :
    (scoreRules e temp humidity wind precip vis cond).delta =
      ((ruleMinTemp e.weather_requirements.min_temp temp).delta
        + (ruleMaxTemp e.weather_requirements.max_temp temp).delta
        + (ruleMinWind e.weather_requirements.min_wind wind).delta
        + (ruleMaxWind e.weather_requirements.max_wind wind).delta
        + (ruleMinVisibility e.weather_requirements.min_visibility vis).delta
        + (ruleCategory e.category cond wind temp).delta
        + (ruleHumidity humidity).delta + (ruleWindComfort wind).delta)
      + (ruleMaxPrecip e.weather_requirements.max_precipitation precip).delta := by
  simp only [scoreRules, RuleOut.comb]
  ring

/-- Above a present `max_precipitation` threshold the block's delta is the
linear penalty `−(precipitation − threshold) × 8`. -/
theorem ruleMaxPrecip_delta_of_lt {m p : ℚ} (h : m < p) :
    (ruleMaxPrecip (some m) p).delta = -((p - m) * 8) := by
  simp only [ruleMaxPrecip, if_pos h]

/-- The event used by the C5 counterexample and witness: a `rain_compatible`
activity whose only requirement is `max_precipitation = 0`, patterned on the
`museum` sample row. -/
def cex5Event : Event :=
  { id := "museum", name := "Museum Tour", category := Category.rain_compatible,
    weather_requirements := { noRequirements with max_precipitation := some 0 },
    min_comfort_score := 30 }

/-- C5 counterexample: with `max_precipitation = 0`, precipitation readings
0.1 and 0.5 both exceed the threshold, yet both final scores are 100 — the
`rain_compatible` +10 bonus pushes both raw scores above the upper clamp — so
the higher-precipitation reading does not score strictly lower although
neither score is clamped to 0. -/
theorem precip_monotonicity_cex :
    (0 : ℚ) < 1/10 ∧ (1/10 : ℚ) < 1/2 ∧
    (calcScore cex5Event { emptyWeather with precipitation := some (1/10) }).1
      = 100 ∧
    (calcScore cex5Event { emptyWeather with precipitation := some (1/2) }).1
      = 100 ∧
    ¬ ((calcScore cex5Event { emptyWeather with precipitation := some (1/2) }).1
        < (calcScore cex5Event
            { emptyWeather with precipitation := some (1/10) }).1) ∧
    ¬ ((calcScore cex5Event { emptyWeather with precipitation := some (1/10) }).1
          = 0 ∧
       (calcScore cex5Event { emptyWeather with precipitation := some (1/2) }).1
          = 0) := by
  norm_num +decide [calcScore, calcScoreCore, scoreRules, ruleMinTemp,
    ruleMaxTemp, ruleMinWind, ruleMaxWind, ruleMaxPrecip, ruleMinVisibility,
    ruleCategory, ruleHumidity, ruleWindComfort, RuleOut.comb, RuleOut.zero,
    clamp100, qmax, qmin, cex5Event, noRequirements, emptyWeather]

/-- C5 (amended): when both precipitation values exceed a present
`max_precipitation` threshold and all other fields agree, the
higher-precipitation reading scores strictly lower, unless both final scores
are clamped to 0 or both are clamped to 100. -/
theorem precip_monotonicity (e : Event) (w : Weather) (m p1 p2 : ℚ)
    (hm : e.weather_requirements.max_precipitation = some m)
    (h1 : m < p1) (h2 : p1 < p2) :
    (calcScore e { w with precipitation := some p2 }).1 <
        (calcScore e { w with precipitation := some p1 }).1 ∨
      ((calcScore e { w with precipitation := some p1 }).1 = 0 ∧
        (calcScore e { w with precipitation := some p2 }).1 = 0) ∨
      ((calcScore e { w with precipitation := some p1 }).1 = 100 ∧
        (calcScore e { w with precipitation := some p2 }).1 = 100) := by
  have hs : ∀ p : ℚ, (calcScore e { w with precipitation := some p }).1 =
      clamp100 (100 + (scoreRules e (w.temperature.getD 20) (w.humidity.getD 50)
        (w.wind_speed.getD 10) p (w.visibility.getD 10)
        (w.condition.getD Condition.sunny)).delta) := fun p => rfl
  have hd : ∀ p : ℚ, (scoreRules e (w.temperature.getD 20) (w.humidity.getD 50)
      (w.wind_speed.getD 10) p (w.visibility.getD 10)
      (w.condition.getD Condition.sunny)).delta =
      ((ruleMinTemp e.weather_requirements.min_temp (w.temperature.getD 20)).delta
        + (ruleMaxTemp e.weather_requirements.max_temp (w.temperature.getD 20)).delta
        + (ruleMinWind e.weather_requirements.min_wind (w.wind_speed.getD 10)).delta
        + (ruleMaxWind e.weather_requirements.max_wind (w.wind_speed.getD 10)).delta
        + (ruleMinVisibility e.weather_requirements.min_visibility
            (w.visibility.getD 10)).delta
        + (ruleCategory e.category (w.condition.getD Condition.sunny)
            (w.wind_speed.getD 10) (w.temperature.getD 20)).delta
        + (ruleHumidity (w.humidity.getD 50)).delta
        + (ruleWindComfort (w.wind_speed.getD 10)).delta)
      + (ruleMaxPrecip (some m) p).delta := by
    intro p
    rw [scoreRules_delta, hm]
  have hr : 100 + (scoreRules e (w.temperature.getD 20) (w.humidity.getD 50)
      (w.wind_speed.getD 10) p2 (w.visibility.getD 10)
      (w.condition.getD Condition.sunny)).delta <
      100 + (scoreRules e (w.temperature.getD 20) (w.humidity.getD 50)
      (w.wind_speed.getD 10) p1 (w.visibility.getD 10)
      (w.condition.getD Condition.sunny)).delta := by
    rw [hd p1, hd p2, ruleMaxPrecip_delta_of_lt h1,
      ruleMaxPrecip_delta_of_lt (h1.trans h2)]
    linarith
  rw [hs p1, hs p2]
  exact clamp100_lt_or_saturated hr

/-- C5 witness: the amended statement at the concrete inputs `threshold 0`,
`precipitation 1` and `2`. -/
theorem precip_monotonicity_witness :
    (calcScore cex5Event { emptyWeather with precipitation := some 2 }).1 <
        (calcScore cex5Event { emptyWeather with precipitation := some 1 }).1 ∨
      ((calcScore cex5Event { emptyWeather with precipitation := some 1 }).1 = 0 ∧
        (calcScore cex5Event { emptyWeather with precipitation := some 2 }).1 = 0) ∨
      ((calcScore cex5Event { emptyWeather with precipitation := some 1 }).1 = 100 ∧
        (calcScore cex5Event { emptyWeather with precipitation := some 2 }).1 = 100) :=
  precip_monotonicity cex5Event emptyWeather 0 1 2 rfl (by norm_num)
    (by norm_num)

/-- C6: the clothing advisor on `{temperature: -3, precipitation: 8,
wind_speed: 25, uv_index: 2}` emits three separate jacket entries — priority 5
from the cold rule, 4 from the precipitation rule, 3 from the wind rule — in a
list sorted non-increasing by priority whose first element is the priority-5
jacket. -/
theorem clothing_example3 (location : String) :
    (getClothingRecommendations example3Weather "short_term"
        location).recommendations.filter
        (fun r => r.item == ClothingItem.jacket) =
      [⟨ClothingItem.jacket, 5, "Very cold weather - heavy winter jacket essential"⟩,
       ⟨ClothingItem.jacket, 4, "Waterproof jacket recommended"⟩,
       ⟨ClothingItem.jacket, 3, "Windy conditions - windproof jacket recommended"⟩] ∧
    (getClothingRecommendations example3Weather "short_term"
        location).recommendations.Pairwise (fun a b => b.priority ≤ a.priority) ∧
    (getClothingRecommendations example3Weather "short_term"
        location).recommendations.head? =
      some ⟨ClothingItem.jacket, 5, "Very cold weather - heavy winter jacket essential"⟩ := by
  have hrec : (getClothingRecommendations example3Weather "short_term"
      location).recommendations =
      [⟨ClothingItem.jacket, 5, "Very cold weather - heavy winter jacket essential"⟩,
       ⟨ClothingItem.gloves, 5, "Protect hands from freezing temperatures"⟩,
       ⟨ClothingItem.umbrella, 5, "Heavy rain expected - umbrella essential"⟩,
       ⟨ClothingItem.scarf, 4, "Protect neck and face from cold"⟩,
       ⟨ClothingItem.boots, 4, "Warm, waterproof footwear essential"⟩,
       ⟨ClothingItem.boots, 4, "Waterproof footwear for wet conditions"⟩,
       ⟨ClothingItem.jacket, 4, "Waterproof jacket recommended"⟩,
       ⟨ClothingItem.jacket, 3, "Windy conditions - windproof jacket recommended"⟩,
       ⟨ClothingItem.hat, 3, "Secure hat to protect from wind"⟩] := by
    with_unfolding_all rfl
  refine ⟨?_, ?_, ?_⟩ <;> rw [hrec] <;> decide

/-- C2 counterexample: the outlook that `SeasonalProbabilityModel` publishes
for month 1 at latitude 55, longitude 0 (continental zone) has
`uncomfortable = 0.5` — the clamped winter base-table value — while the claimed
formula over that outlook's own published probabilities
`clamp01((0.05 + 0.8 + 0.6)/3 + 0.2·0.5)` equals `7/12 ≈ 0.583`. -/
theorem outlook_uncomfortable_cex :
    (calcMonthProbabilities 1 (getClimateZone 55) 55 0).probabilities.uncomfortable
      = 1/2 ∧
    clamp01
      (((calcMonthProbabilities 1 (getClimateZone 55) 55 0).probabilities.very_hot
        + (calcMonthProbabilities 1 (getClimateZone 55) 55 0).probabilities.very_cold
        + (calcMonthProbabilities 1 (getClimateZone 55) 55 0).probabilities.very_windy) / 3
        + (calcMonthProbabilities 1 (getClimateZone 55) 55 0).probabilities.very_wet * 0.5)
      = 7/12 ∧
    (calcMonthProbabilities 1 (getClimateZone 55) 55 0).probabilities.uncomfortable
      ≠ clamp01
      (((calcMonthProbabilities 1 (getClimateZone 55) 55 0).probabilities.very_hot
        + (calcMonthProbabilities 1 (getClimateZone 55) 55 0).probabilities.very_cold
        + (calcMonthProbabilities 1 (getClimateZone 55) 55 0).probabilities.very_windy) / 3
        + (calcMonthProbabilities 1 (getClimateZone 55) 55 0).probabilities.very_wet * 0.5) := by
  norm_num +decide [calcMonthProbabilities, getClimateZone, getBaseProbabilities,
    getLatitudeAdjustments, getLongitudeAdjustments, clamp01, qmax, qmin, qabs,
    round2, roundHalfEven]

/-- C2 (amended): in `WeatherService._generate_monthly_outlook` the published
`uncomfortable` equals `min(1, (very_hot + very_cold + very_windy)/3 +
very_wet·0.5)` computed from the raw pre-rounding draws, rounded to two
decimals; in the `SeasonalProbabilityModel` pipeline `uncomfortable` is instead
the clamped zone-and-season base-table value, independent of the published
probabilities, so only the service pipeline obeys the formula. -/
theorem outlook_uncomfortable_amended :
    (∀ (month : ℕ) (lat lon : ℚ) (d : OutlookDraws),
      drawsInRange (effectiveSeason month lat) d →
      (generateMonthlyOutlook month lat lon d).probabilities.uncomfortable =
        round2 (qmin 1 ((d.very_hot + d.very_cold + d.very_windy) / 3
          + d.very_wet * 0.5))) ∧
    (∀ (month : ℕ) (zone : Zone) (lat lon : ℚ),
      (calcMonthProbabilities month zone lat lon).probabilities.uncomfortable =
        round2 (clamp01 (getBaseProbabilities zone month).uncomfortable)) :=
  ⟨fun _ _ _ _ _ => rfl, fun _ _ _ _ => rfl⟩

/-- C2 witness: January at latitude 51 (northern winter) with in-range draws
`(0.05, 0.5, 0.4, 0.5)` publishes
`uncomfortable = round2(min(1, (0.05 + 0.5 + 0.5)/3 + 0.4·0.5))`. -/
theorem outlook_uncomfortable_amended_witness :
    drawsInRange (effectiveSeason 1 51) ⟨0.05, 0.5, 0.4, 0.5, 0, 50⟩ ∧
    (generateMonthlyOutlook 1 51 0
        ⟨0.05, 0.5, 0.4, 0.5, 0, 50⟩).probabilities.uncomfortable =
      round2 (qmin 1 ((0.05 + 0.5 + 0.5) / 3 + (0.4 : ℚ) * 0.5)) :=
  ⟨by norm_num [drawsInRange, effectiveSeason, monthSeason],
   outlook_uncomfortable_amended.1 1 51 0 ⟨0.05, 0.5, 0.4, 0.5, 0, 50⟩
     (by norm_num [drawsInRange, effectiveSeason, monthSeason])⟩

/-- C7: the comfort index equals the clamp to `[0,100]` of the average of the
three sub-scores minus the precipitation, UV and visibility penalties, and is
therefore always within `[0,100]`. -/
theorem comfort_index_spec_and_bounds (w : WeatherData) :
    calcComfortIndex w = comfortIndexSpec w ∧
    0 ≤ calcComfortIndex w ∧ calcComfortIndex w ≤ 100 := by
  refine ⟨?_, ?_, ?_⟩
  · simp only [calcComfortIndex, comfortIndexSpec, clamp100, qmax_eq_max,
      qmin_eq_min, qabs_eq_abs]
  · simp only [calcComfortIndex]
    exact le_qmax_left 0 _
  · simp only [calcComfortIndex]
    exact qmax_le (by norm_num) (qmin_le_left 100 _)

/-- C4: the ranking returns at most 10 results, sorted non-increasing by
score; every returned entry comes from a catalog entry passing the category
filter whose score reached its own `min_comfort_score`; and the descending
sort is stable — for every score value, the entries carrying it appear in
catalog order. -/
theorem ranking_spec (events : List Event) (w : Weather) (ftype : String)
    (cats : Option (List Category)) :
    (getEventRecommendations events w ftype cats).length ≤ 10 ∧
    (getEventRecommendations events w ftype cats).Pairwise
      (fun a b => b.score ≤ a.score) ∧
    (∀ r ∈ getEventRecommendations events w ftype cats,
      ∃ e ∈ filteredEvents events cats,
        e.min_comfort_score ≤ (calcScore e w).1 ∧ r = mkSuitability e w) ∧
    (∀ s : ℚ,
      (sortByKeyDesc (fun r : EventSuitabilityScore => r.score)
          (keptResults events w cats)).filter (fun r => decide (r.score = s)) =
        (keptResults events w cats).filter (fun r => decide (r.score = s))) := by
  refine ⟨?_, ?_, ?_, ?_⟩
  · exact List.length_take_le 10 _
  · exact List.Pairwise.sublist (List.take_sublist 10 _)
      (pairwise_sortByKeyDesc _ _)
  · intro r hr
    have h1 : r ∈ sortByKeyDesc (fun r : EventSuitabilityScore => r.score)
        (keptResults events w cats) := List.take_subset _ _ hr
    have h2 : r ∈ keptResults events w cats :=
      (mem_sortByKeyDesc _ _ _).mp h1
    simp only [keptResults] at h2
    rcases List.mem_filterMap.mp h2 with ⟨e, he, hsome⟩
    by_cases hc : e.min_comfort_score ≤ (calcScore e w).1
    · rw [if_pos hc] at hsome
      exact ⟨e, he, hc, (Option.some_inj.mp hsome).symm⟩
    · rw [if_neg hc] at hsome
      cases hsome
  · intro s
    exact filter_sortByKeyDesc _ s _

/-- C4 witness: on a one-entry catalog with no requirements, the returned
entry is traced back to its catalog event, and stability holds at score
100. -/
theorem ranking_spec_witness :
    (∃ e ∈ filteredEvents [sampleEvent] none,
      e.min_comfort_score ≤ (calcScore e emptyWeather).1 ∧
      mkSuitability sampleEvent emptyWeather = mkSuitability e emptyWeather) ∧
    (sortByKeyDesc (fun r : EventSuitabilityScore => r.score)
        (keptResults [sampleEvent] emptyWeather none)).filter
        (fun r => decide (r.score = 100)) =
      (keptResults [sampleEvent] emptyWeather none).filter
        (fun r => decide (r.score = 100)) := by
  have hkept : keptResults [sampleEvent] emptyWeather none =
      [mkSuitability sampleEvent emptyWeather] := by
    norm_num +decide [keptResults, filteredEvents, calcScore, calcScoreCore,
      scoreRules, ruleMinTemp, ruleMaxTemp, ruleMinWind, ruleMaxWind,
      ruleMaxPrecip, ruleMinVisibility, ruleCategory, ruleHumidity,
      ruleWindComfort, RuleOut.comb, RuleOut.zero, clamp100, qmax, qmin,
      sampleEvent, noRequirements, emptyWeather, List.filterMap]
  have hmem : mkSuitability sampleEvent emptyWeather ∈
      getEventRecommendations [sampleEvent] emptyWeather "short_term" none := by
    rw [getEventRecommendations, hkept]
    rw [List.take_of_length_le (by norm_num [sortByKeyDesc, insertByKeyDesc])]
    simp [sortByKeyDesc, insertByKeyDesc]
  exact ⟨(ranking_spec [sampleEvent] emptyWeather "short_term" none).2.2.1
      (mkSuitability sampleEvent emptyWeather) hmem,
    (ranking_spec [sampleEvent] emptyWeather "short_term" none).2.2.2 100⟩

/-- C8: filling the documented defaults (temperature 20, humidity 50, wind 10,
precipitation 0, uv_index 5, visibility 10, condition "sunny") into the absent
fields of a weather mapping changes neither the matcher's nor the clothing
advisor's result; both operations are total, so a missing field is never
rejected. -/
theorem missing_fields_defaulted :
    (∀ (e : Event) (w : Weather), calcScore e (fillDefaults w) = calcScore e w) ∧
    (∀ (w : Weather) (ftype location : String),
        getClothingRecommendations (fillDefaults w) ftype location =
          getClothingRecommendations w ftype location) :=
  ⟨fun _ _ => rfl, fun _ _ _ => rfl⟩

/-- C9: an empty category-filter list behaves exactly like passing no filter:
Python's `if categories:` is false for `[]`, so every catalog entry is
considered. -/
theorem empty_filter_same_as_none (events : List Event) (w : Weather)
    (ftype : String) :
    filteredEvents events (some []) = events ∧
    getEventRecommendations events w ftype (some []) =
      getEventRecommendations events w ftype none :=
  ⟨rfl, rfl⟩

/-- C10: the matcher (category overlays and comfort adjustments included)
reads neither `uv_index` nor `cloud_cover`: two weather mappings agreeing on
every other field produce identical score, reasons and recommendations. -/
theorem matcher_ignores_uv_and_cloud (e : Event) (w1 w2 : Weather)
    (ht : w1.temperature = w2.temperature) (hh : w1.humidity = w2.humidity)
    (hw : w1.wind_speed = w2.wind_speed)
    (hp : w1.precipitation = w2.precipitation)
    (hv : w1.visibility = w2.visibility) (hc : w1.condition = w2.condition) :
    calcScore e w1 = calcScore e w2 := by
  unfold calcScore
  rw [ht, hh, hw, hp, hv, hc]

/-- C10 witness: two concrete readings differing only in `uv_index` and
`cloud_cover` score identically. -/
theorem matcher_ignores_uv_and_cloud_witness :
    calcScore sampleEvent
        { emptyWeather with uv_index := some 11, cloud_cover := some 90 } =
      calcScore sampleEvent
        { emptyWeather with uv_index := some 0, cloud_cover := some 10 } :=
  matcher_ignores_uv_and_cloud sampleEvent _ _ rfl rfl rfl rfl rfl rfl

end SureWeather
